import Mathlib

/-!
Verification of the wc-audio-player composition core (src/core/player.ts,
src/core/controls.ts, src/core/keyboard.ts, src/core/accessibility.ts,
src/plugins/analytics.ts) against its natural-language specification.

Numbers are modelled as rationals (JS doubles carry exact small values for
every input the claims quantify over; NaN/Infinity are outside the model).
The AudioEngine (wavesurfer.js) is an external collaborator: it is modelled
as an opaque transport record, and each player operation additionally
reports the list of engine commands it issued and the screen-reader
announcements it made, so that "issues no engine call" is a provable
statement about a trace.
-/

namespace WCAudio

/-- JS `x || d` for numeric `x`: `0` is falsy and falls through to `d`
(NaN, also falsy, is outside the rational model). -/
def jsOr (x d : ℚ) : ℚ := if x = 0 then d else x

/-- Internal player state, mirroring `PlayerState` in src/types.ts. -/
structure PlayerState where
  isReady : Bool
  isPlaying : Bool
  isMuted : Bool
  currentSpeed : ℚ
  previousVolume : ℚ
  currentTime : ℚ
  duration : ℚ
  hasTrackedView : Bool
  hasTrackedPlay : Bool
  hasTrackedComplete : Bool
deriving DecidableEq, Repr

/-- `createInitialState()` from src/core/player.ts. -/
def createInitialState : PlayerState :=
  { isReady := false
    isPlaying := false
    isMuted := false
    currentSpeed := 1
    previousVolume := 1
    currentTime := 0
    duration := 0
    hasTrackedView := false
    hasTrackedPlay := false
    hasTrackedComplete := false }

/-- The external AudioEngine (wavesurfer.js), modelled at its interface
boundary only: the queryable transport values the player reads. -/
structure Engine where
  volume : ℚ
  rate : ℚ
  currentTime : ℚ
  duration : ℚ
  isPlaying : Bool
deriving DecidableEq, Repr

/-- Commands the player may issue to the AudioEngine. -/
inductive EngineCmd where
  | play
  | pause
  | playPause
  | seekTo (progress : ℚ)
  | setVolume (v : ℚ)
  | setPlaybackRate (r : ℚ)
deriving DecidableEq, Repr

/-- Effect of an engine command on the engine's own observable state
(external semantics of the wavesurfer transport: a seek positions the
audio at `progress` of the total duration). -/
def applyCmd (e : Engine) : EngineCmd → Engine
  | .play => { e with isPlaying := true }
  | .pause => { e with isPlaying := false }
  | .playPause => { e with isPlaying := !e.isPlaying }
  | .seekTo progress => { e with currentTime := progress * e.duration }
  | .setVolume v => { e with volume := v }
  | .setPlaybackRate r => { e with rate := r }

/-- `Required<SpeedConfig>` from src/types.ts. -/
structure SpeedConfigR where
  enabled : Bool
  options : List ℚ
  defaultSpeed : ℚ
deriving DecidableEq, Repr

/-- `Required<SkipConfig>` from src/types.ts. -/
structure SkipConfigR where
  enabled : Bool
  seconds : ℚ
deriving DecidableEq, Repr

/-- A player instance: state, the optional engine reference (null before
asynchronous initialization completes and after destroy), and the
normalized configs captured by the `createPlayer` closure. -/
structure Player where
  state : PlayerState
  engine : Option Engine
  speedConfig : SpeedConfigR
  skipConfig : SkipConfigR
deriving DecidableEq, Repr

/-- Result of one public player operation: the next player, the engine
commands issued (in order), and the screen-reader announcements made. -/
structure OpResult where
  player : Player
  cmds : List EngineCmd
  ann : List String
deriving DecidableEq, Repr

/-- `wavesurfer?.cmd(...)`: issue a command only when the engine reference
is present; otherwise nothing happens and no command is recorded. -/
def optCall (p : Player) (c : EngineCmd) : Player × List EngineCmd :=
  match p.engine with
  | none => (p, [])
  | some e => ({ p with engine := some (applyCmd e c) }, [c])

/-- `play()` from src/core/player.ts: `wavesurfer?.play()`. -/
def Player.play (p : Player) : OpResult :=
  let r := optCall p .play
  ⟨r.1, r.2, []⟩

/-- `pause()` from src/core/player.ts: `wavesurfer?.pause()`. -/
def Player.pause (p : Player) : OpResult :=
  let r := optCall p .pause
  ⟨r.1, r.2, []⟩

/-- `playPause()` from src/core/player.ts: `wavesurfer?.playPause()`. -/
def Player.playPause (p : Player) : OpResult :=
  let r := optCall p .playPause
  ⟨r.1, r.2, []⟩

/-- `seekTo(progress)` from src/core/player.ts:
`wavesurfer?.seekTo(Math.max(0, Math.min(1, progress)))`. -/
def Player.seekTo (p : Player) (progress : ℚ) : OpResult :=
  let r := optCall p (.seekTo (max 0 (min 1 progress)))
  ⟨r.1, r.2, []⟩

/-- `getCurrentTime()` from src/core/player.ts:
`wavesurfer?.getCurrentTime() || 0` (absent engine and 0 both give 0). -/
def Player.getCurrentTime (p : Player) : ℚ :=
  (p.engine.map Engine.currentTime).getD 0

/-- `getDuration()` from src/core/player.ts:
`wavesurfer?.getDuration() || 0` (absent engine and 0 both give 0). -/
def Player.getDuration (p : Player) : ℚ :=
  (p.engine.map Engine.duration).getD 0

/-- `seekToTime(seconds)` from src/core/player.ts. -/
def Player.seekToTime (p : Player) (seconds : ℚ) : OpResult :=
  let duration := (p.engine.map Engine.duration).getD 0
  if 0 < duration then p.seekTo (seconds / duration) else ⟨p, [], []⟩

/-- `skipForward(seconds?)` from src/core/player.ts: resolve the skip
amount (`seconds ?? skipConfig.seconds`), clamp the new absolute time
above by the duration, delegate to `seekTo` unless duration is 0. -/
def Player.skipForward (p : Player) (seconds? : Option ℚ) : OpResult :=
  let skipAmount := seconds?.getD p.skipConfig.seconds
  let current := (p.engine.map Engine.currentTime).getD 0
  let duration := (p.engine.map Engine.duration).getD 0
  let newTime := min duration (current + skipAmount)
  if 0 < duration then p.seekTo (newTime / duration) else ⟨p, [], []⟩

/-- `skipBack(seconds?)` from src/core/player.ts: clamp the new absolute
time below by 0, delegate to `seekTo` unless duration is 0. -/
def Player.skipBack (p : Player) (seconds? : Option ℚ) : OpResult :=
  let skipAmount := seconds?.getD p.skipConfig.seconds
  let current := (p.engine.map Engine.currentTime).getD 0
  let duration := (p.engine.map Engine.duration).getD 0
  let newTime := max 0 (current - skipAmount)
  if 0 < duration then p.seekTo (newTime / duration) else ⟨p, [], []⟩

/-- `setSpeed(speed)` from src/core/player.ts: write `state.currentSpeed`
unconditionally, then `wavesurfer?.setPlaybackRate(speed)`. -/
def Player.setSpeed (p : Player) (speed : ℚ) : OpResult :=
  let p1 : Player := { p with state := { p.state with currentSpeed := speed } }
  let r := optCall p1 (.setPlaybackRate speed)
  ⟨r.1, r.2, []⟩

/-- JS `Array.prototype.indexOf` on numbers: first index of `x`, `-1` when
absent. -/
def jsIndexOf (l : List ℚ) (x : ℚ) : Int :=
  match l with
  | [] => -1
  | a :: t =>
    if a = x then 0
    else
      let r := jsIndexOf t x
      if r = -1 then -1 else r + 1

/-- `cycleSpeed()` from src/core/player.ts:
`nextIndex = (options.indexOf(currentSpeed) + 1) % options.length`.
For nonempty options this is faithful to the JS (the index is `-1` when
`currentSpeed` is absent, so `nextIndex` is then 0); empty options make
the JS compute `0 % 0 = NaN` and set the speed to `undefined`, which is
outside the numeric model — the claims assume a nonempty options list. -/
def Player.cycleSpeed (p : Player) : OpResult :=
  let options := p.speedConfig.options
  let currentIndex := jsIndexOf options p.state.currentSpeed
  let nextIndex := (currentIndex + 1) % (options.length : Int)
  p.setSpeed (options.getD nextIndex.toNat 0)

/-- `setVolume(volume)` from src/core/player.ts. -/
def Player.setVolume (p : Player) (volume : ℚ) : OpResult :=
  let clamped := max 0 (min 1 volume)
  let r := optCall p (.setVolume clamped)
  if 0 < clamped then
    ⟨{ r.1 with state := { r.1.state with previousVolume := clamped, isMuted := false } },
      r.2, []⟩
  else
    ⟨r.1, r.2, []⟩

/-- `toggleMute()` from src/core/player.ts. On mute the captured volume is
`wavesurfer?.getVolume() || 1`: an absent engine and an engine volume of
exactly 0 both capture 1. -/
def Player.toggleMute (p : Player) : OpResult :=
  if p.state.isMuted then
    let r := optCall p (.setVolume p.state.previousVolume)
    ⟨{ r.1 with state := { r.1.state with isMuted := false } }, r.2, ["Unmuted"]⟩
  else
    let prevVol := (p.engine.map (fun e => jsOr e.volume 1)).getD 1
    let p1 : Player := { p with state := { p.state with previousVolume := prevVol } }
    let r := optCall p1 (.setVolume 0)
    ⟨{ r.1 with state := { r.1.state with isMuted := true } }, r.2, ["Muted"]⟩

/-- `destroy()` from src/core/player.ts, restricted to its effect on the
player record: the engine is destroyed and the reference released
(`wavesurfer = null`); cleanup callbacks, plugin teardown and the shared
announcer cleanup act on page-level state modelled separately. -/
def Player.destroy (p : Player) : Player :=
  { p with engine := none }

/-! ### AudioEngine events (`setupWavesurferEvents`, src/core/player.ts) -/

/-- The wavesurfer event stream observed by `setupWavesurferEvents`. -/
inductive WsEvent where
  | ready
  | play
  | pause
  | finish
  | seeking
  | audioprocess
  | error
deriving DecidableEq, Repr

/-- The state mutation performed by the handler registered for each
wavesurfer event in `setupWavesurferEvents` (src/core/player.ts); `e` is
the engine the handlers query (`ws.getDuration()`, `ws.getCurrentTime()`).
The lifecycle callbacks (`onReady`, `onPlay`, ...) are host-side effects
with no influence on `PlayerState` and are not recorded here. -/
def handleWsEvent (e : Engine) (s : PlayerState) : WsEvent → PlayerState
  | .ready => { s with isReady := true, duration := e.duration }
  | .play => { s with isPlaying := true }
  | .pause => { s with isPlaying := false, currentTime := e.currentTime }
  | .finish => { s with isPlaying := false }
  | .seeking => { s with currentTime := e.currentTime }
  | .audioprocess => { s with currentTime := e.currentTime }
  | .error => s

/-! ### Configuration normalizers (src/core/controls.ts, src/core/keyboard.ts,
src/plugins/analytics.ts) -/

/-- The three shapes a feature toggle can take at the normalization
boundary: `false`/`true` literal, `undefined`, or a config object. -/
inductive FeatureToggle (α : Type) where
  | bool (b : Bool)
  | undef
  | obj (c : α)
deriving DecidableEq, Repr

/-- `DEFAULT_SPEED_OPTIONS` from src/core/controls.ts. -/
def DEFAULT_SPEED_OPTIONS : List ℚ := [1/2, 3/4, 1, 5/4, 3/2, 7/4, 2]

/-- `DEFAULT_SKIP_SECONDS` from src/core/controls.ts. -/
def DEFAULT_SKIP_SECONDS : ℚ := 15

/-- A caller-supplied `SpeedConfig` object (src/types.ts): `enabled` is a
required boolean, the remaining fields are optional (`none` models both an
absent property and an explicit `undefined`). -/
structure SpeedConfigP where
  enabled : Bool
  options : Option (List ℚ)
  defaultSpeed : Option ℚ
deriving DecidableEq, Repr

/-- A caller-supplied `SkipConfig` object (src/types.ts). -/
structure SkipConfigP where
  enabled : Bool
  seconds : Option ℚ
deriving DecidableEq, Repr

/-- `normalizeSpeedConfig` from src/core/controls.ts. In the object case
the source reads `options: config.options || DEFAULT_SPEED_OPTIONS`
(arrays are always truthy, so a present list is kept even when empty) and
`defaultSpeed: config.defaultSpeed || 1` (`0` is falsy and falls back);
`enabled: config.enabled !== false` collapses to the boolean itself since
`enabled` is typed `boolean`. -/
def normalizeSpeedConfig : FeatureToggle SpeedConfigP → SpeedConfigR
  | .bool false => ⟨false, DEFAULT_SPEED_OPTIONS, 1⟩
  | .bool true => ⟨true, DEFAULT_SPEED_OPTIONS, 1⟩
  | .undef => ⟨true, DEFAULT_SPEED_OPTIONS, 1⟩
  | .obj c =>
    ⟨c.enabled,
      c.options.getD DEFAULT_SPEED_OPTIONS,
      match c.defaultSpeed with
      | none => 1
      | some x => jsOr x 1⟩

/-- `normalizeSkipConfig` from src/core/controls.ts (`seconds:
config.seconds || DEFAULT_SKIP_SECONDS`, so `0` falls back to 15). -/
def normalizeSkipConfig : FeatureToggle SkipConfigP → SkipConfigR
  | .bool false => ⟨false, DEFAULT_SKIP_SECONDS⟩
  | .bool true => ⟨true, DEFAULT_SKIP_SECONDS⟩
  | .undef => ⟨true, DEFAULT_SKIP_SECONDS⟩
  | .obj c =>
    ⟨c.enabled,
      match c.seconds with
      | none => DEFAULT_SKIP_SECONDS
      | some s => jsOr s DEFAULT_SKIP_SECONDS⟩

/-- `Required<KeyboardConfig>` from src/types.ts. -/
structure KeyboardConfigR where
  enabled : Bool
  playPause : List String
  skipBack : List String
  skipForward : List String
  speedUp : List String
  speedDown : List String
  mute : List String
  jumpStart : List String
  jumpEnd : List String
  showHints : Bool
deriving DecidableEq, Repr

/-- A caller-supplied `KeyboardConfig` object (src/types.ts): `enabled`
required, the rest optional. -/
structure KeyboardConfigP where
  enabled : Bool
  playPause : Option (List String)
  skipBack : Option (List String)
  skipForward : Option (List String)
  speedUp : Option (List String)
  speedDown : Option (List String)
  mute : Option (List String)
  jumpStart : Option (List String)
  jumpEnd : Option (List String)
  showHints : Option Bool
deriving DecidableEq, Repr

/-- `DEFAULT_KEYBOARD_CONFIG` from src/core/keyboard.ts. -/
def DEFAULT_KEYBOARD_CONFIG : KeyboardConfigR :=
  { enabled := true
    playPause := [" ", "k", "K"]
    skipBack := ["j", "J", "ArrowLeft"]
    skipForward := ["l", "L", "ArrowRight"]
    speedUp := ["ArrowUp"]
    speedDown := ["ArrowDown"]
    mute := ["m", "M"]
    jumpStart := ["0", "Home"]
    jumpEnd := ["End"]
    showHints := true }

/-- `normalizeKeyboardConfig` from src/core/keyboard.ts: the object case
is `{...DEFAULT_KEYBOARD_CONFIG, ...config}`, so every present field of
the object overrides the default and `enabled` is taken from the object
(it is a required boolean, making the spread equivalent to
`enabled !== false`). -/
def normalizeKeyboardConfig : FeatureToggle KeyboardConfigP → KeyboardConfigR
  | .bool false => { DEFAULT_KEYBOARD_CONFIG with enabled := false }
  | .bool true => DEFAULT_KEYBOARD_CONFIG
  | .undef => DEFAULT_KEYBOARD_CONFIG
  | .obj c =>
    { enabled := c.enabled
      playPause := c.playPause.getD DEFAULT_KEYBOARD_CONFIG.playPause
      skipBack := c.skipBack.getD DEFAULT_KEYBOARD_CONFIG.skipBack
      skipForward := c.skipForward.getD DEFAULT_KEYBOARD_CONFIG.skipForward
      speedUp := c.speedUp.getD DEFAULT_KEYBOARD_CONFIG.speedUp
      speedDown := c.speedDown.getD DEFAULT_KEYBOARD_CONFIG.speedDown
      mute := c.mute.getD DEFAULT_KEYBOARD_CONFIG.mute
      jumpStart := c.jumpStart.getD DEFAULT_KEYBOARD_CONFIG.jumpStart
      jumpEnd := c.jumpEnd.getD DEFAULT_KEYBOARD_CONFIG.jumpEnd
      showHints := c.showHints.getD DEFAULT_KEYBOARD_CONFIG.showHints }

/-- `Required<AnalyticsConfig>` from src/types.ts. The `tracker` field is
a function; only its presence matters here, and the source default is the
cast `undefined as unknown as AnalyticsTracker`, i.e. absent. -/
structure AnalyticsConfigR where
  enabled : Bool
  tracker : Option Unit
  trackView : Bool
  trackPlay : Bool
  trackPause : Bool
  trackComplete : Bool
  trackSpeedChange : Bool
  trackSkip : Bool
deriving DecidableEq, Repr

/-- A caller-supplied `AnalyticsConfig` object (src/types.ts). -/
structure AnalyticsConfigP where
  enabled : Bool
  tracker : Option Unit
  trackView : Option Bool
  trackPlay : Option Bool
  trackPause : Option Bool
  trackComplete : Option Bool
  trackSpeedChange : Option Bool
  trackSkip : Option Bool
deriving DecidableEq, Repr

/-- `DEFAULT_ANALYTICS_CONFIG` from src/plugins/analytics.ts. -/
def DEFAULT_ANALYTICS_CONFIG : AnalyticsConfigR :=
  { enabled := true
    tracker := none
    trackView := true
    trackPlay := true
    trackPause := true
    trackComplete := true
    trackSpeedChange := true
    trackSkip := true }

/-- `normalizeAnalyticsConfig` from src/plugins/analytics.ts: object case
is `{...DEFAULT, ...config, enabled: config.enabled !== false}` — a real
spread, so present fields (including explicit `false`) override. -/
def normalizeAnalyticsConfig : FeatureToggle AnalyticsConfigP → AnalyticsConfigR
  | .bool false => { DEFAULT_ANALYTICS_CONFIG with enabled := false }
  | .bool true => DEFAULT_ANALYTICS_CONFIG
  | .undef => DEFAULT_ANALYTICS_CONFIG
  | .obj c =>
    { enabled := c.enabled
      tracker := match c.tracker with
        | some t => some t
        | none => DEFAULT_ANALYTICS_CONFIG.tracker
      trackView := c.trackView.getD DEFAULT_ANALYTICS_CONFIG.trackView
      trackPlay := c.trackPlay.getD DEFAULT_ANALYTICS_CONFIG.trackPlay
      trackPause := c.trackPause.getD DEFAULT_ANALYTICS_CONFIG.trackPause
      trackComplete := c.trackComplete.getD DEFAULT_ANALYTICS_CONFIG.trackComplete
      trackSpeedChange := c.trackSpeedChange.getD DEFAULT_ANALYTICS_CONFIG.trackSpeedChange
      trackSkip := c.trackSkip.getD DEFAULT_ANALYTICS_CONFIG.trackSkip }

/-! ### Keyboard controller (src/core/keyboard.ts) -/

/-- The part of `document.activeElement` that `isInputFocused` inspects:
tag name and the content-editable flag; `none` models no active element. -/
structure FocusInfo where
  tagName : String
  contentEditable : Bool
deriving DecidableEq, Repr

/-- `isInputFocused` from src/core/keyboard.ts. -/
def isInputFocused (active : Option FocusInfo) : Bool :=
  match active with
  | none => false
  | some a => ["INPUT", "TEXTAREA", "SELECT"].contains a.tagName || a.contentEditable

/-- `getSpeedOptions` from src/core/keyboard.ts: it reads the raw
`player.options.features?.speed` union; a present `options` array is
returned (arrays are truthy), otherwise the hard-coded default list. -/
def getSpeedOptions (speedFeature : FeatureToggle SpeedConfigP) : List ℚ :=
  match speedFeature with
  | .obj c =>
    match c.options with
    | some l => l
    | none => [1/2, 3/4, 1, 5/4, 3/2, 7/4, 2]
  | _ => [1/2, 3/4, 1, 5/4, 3/2, 7/4, 2]

/-- `getSpeedIndex` from src/core/keyboard.ts:
`index >= 0 ? index : options.indexOf(1)`. -/
def getSpeedIndex (speedFeature : FeatureToggle SpeedConfigP) (current : ℚ) : Int :=
  let options := getSpeedOptions speedFeature
  let index := jsIndexOf options current
  if 0 ≤ index then index else jsIndexOf options 1

/-- The `undefined` speed feature toggle, named so witnesses can pass it
inline. -/
def speedFeatureUndef : FeatureToggle SpeedConfigP :=
  FeatureToggle.undef

/-- A player operation dispatched by the keyboard handler. -/
inductive KAction where
  | playPause
  | skipBack
  | skipForward
  | setSpeed (v : ℚ)
  | toggleMute
  | seekTo (progress : ℚ)
  | pause
  | announce (msg : String)
deriving DecidableEq, Repr

/-- `handleKeyDown` from `setupKeyboardShortcuts` (src/core/keyboard.ts).
Inputs are the normalized config, the focus situation, whether
`player.wavesurfer` is bound, the player state, the raw speed feature
toggle (read by the speed-up/down branches) and the event key. Output is
the list of player operations dispatched and whether `preventDefault` was
called. The two early-return guards come first: typing focus, then
`!player.wavesurfer || !player.state.isReady`. -/
def handleKeyDown (cfg : KeyboardConfigR) (active : Option FocusInfo)
    (engineBound : Bool) (st : PlayerState)
    (speedFeature : FeatureToggle SpeedConfigP) (key : String) :
    List KAction × Bool :=
  if isInputFocused active then ([], false)
  else if !engineBound || !st.isReady then ([], false)
  else if cfg.playPause.contains key then ([.playPause], true)
  else if cfg.skipBack.contains key then ([.skipBack], true)
  else if cfg.skipForward.contains key then ([.skipForward], true)
  else if cfg.speedUp.contains key then
    let currentIndex := getSpeedIndex speedFeature st.currentSpeed
    let options := getSpeedOptions speedFeature
    if currentIndex < (options.length : Int) - 1 then
      ([.setSpeed (options.getD (currentIndex + 1).toNat 0)], true)
    else ([], true)
  else if cfg.speedDown.contains key then
    let currentIndex := getSpeedIndex speedFeature st.currentSpeed
    let options := getSpeedOptions speedFeature
    if 0 < currentIndex then
      ([.setSpeed (options.getD (currentIndex - 1).toNat 0)], true)
    else ([], true)
  else if cfg.mute.contains key then ([.toggleMute], true)
  else if cfg.jumpStart.contains key then
    ([.seekTo 0, .announce "Jumped to start"], true)
  else if cfg.jumpEnd.contains key then
    ([.seekTo (999/1000), .pause, .announce "Jumped to end"], true)
  else ([], false)

/-! ### Plugin method wrapping (src/plugins/analytics.ts, `use` in
src/core/player.ts) -/

/-- Observable effects of a (possibly wrapped) `setSpeed` call. -/
inductive SpeedEvent where
  | rate (speed : ℚ)
  | track (name : String) (speed : ℚ)
deriving DecidableEq, Repr

/-- A player viewed through its mutable method table, as plugins see it:
the state plus the currently bound `setSpeed` implementation. -/
structure PluginPlayer where
  state : PlayerState
  setSpeedImpl : ℚ → PlayerState → PlayerState × List SpeedEvent

/-- The base `setSpeed` bound at construction (src/core/player.ts):
update `state.currentSpeed`, forward the rate to the engine. -/
def baseSetSpeed : ℚ → PlayerState → PlayerState × List SpeedEvent :=
  fun speed s => ({ s with currentSpeed := speed }, [.rate speed])

/-- The rebinding performed by the analytics plugin `init` when
`trackSpeedChange` is on (src/plugins/analytics.ts):
`const originalSetSpeed = player.setSpeed.bind(player);
player.setSpeed = (speed) => { originalSetSpeed(speed); track(...) }`.
The captured `original` is whatever implementation was bound at
registration time; the added tracking runs after the chained call. -/
def wrapSpeedTracking (name : String)
    (original : ℚ → PlayerState → PlayerState × List SpeedEvent) :
    ℚ → PlayerState → PlayerState × List SpeedEvent :=
  fun speed s =>
    let r := original speed s
    (r.1, r.2 ++ [.track name speed])

/-- A plugin as `use` sees it: `init` receives the live player reference
and may rebind its methods. -/
structure MPlugin where
  name : String
  init : PluginPlayer → PluginPlayer

/-- `use(plugin)` from src/core/player.ts: append to the registry and
immediately run `plugin.init(player)` on the live reference (the registry
itself carries no behavior relevant here). -/
def PluginPlayer.use (p : PluginPlayer) (plg : MPlugin) : PluginPlayer :=
  plg.init p

/-- An analytics plugin instance reduced to its `setSpeed` wrapping. -/
def analyticsSpeedPlugin (name : String) : MPlugin :=
  ⟨name, fun p => { p with setSpeedImpl := wrapSpeedTracking name p.setSpeedImpl }⟩

/-- Invoke the currently bound `setSpeed` through the method table. -/
def PluginPlayer.callSetSpeed (p : PluginPlayer) (speed : ℚ) :
    PluginPlayer × List SpeedEvent :=
  let r := p.setSpeedImpl speed p.state
  ({ p with state := r.1 }, r.2)

/-! ### Shared announcer lifecycle (src/core/accessibility.ts) -/

/-- Page-level state relevant to the shared announcer:
`playerClassCount` is the number of elements in the document carrying the
class `wc-audio-player` (the class the README's markup convention puts on
host containers — `createPlayer` itself never adds it),
`initializedCount` the number carrying `wc-audio-player--initialized`
(added by `initializePlayer`, removed by `destroy`), and the announcer's
presence in the document plus the module-level `announcerElement` cache. -/
structure AnnouncerPage where
  playerClassCount : Nat
  initializedCount : Nat
  announcerInDoc : Bool
  announcerCached : Bool
deriving DecidableEq, Repr

/-- `cleanupAnnouncer` from src/core/accessibility.ts: remove the cached
announcer only when `document.querySelectorAll('.wc-audio-player')` is
empty. -/
def cleanupAnnouncer (s : AnnouncerPage) : AnnouncerPage :=
  if s.announcerCached && s.announcerInDoc then
    if s.playerClassCount = 0 then
      { s with announcerInDoc := false, announcerCached := false }
    else s
  else s

/-- The page-level effect of `destroy()` (src/core/player.ts): it calls
`cleanupAnnouncer()` and then removes the class
`wc-audio-player--initialized` from its container — it removes neither
the container element nor any `wc-audio-player` class, so
`playerClassCount` is untouched. -/
def destroyPageEffect (s : AnnouncerPage) : AnnouncerPage :=
  let s1 := cleanupAnnouncer s
  { s1 with initializedCount := s1.initializedCount - 1 }

/-! ### Helper lemmas -/

lemma optCall_none {p : Player} (h : p.engine = none) (c : EngineCmd) :
    optCall p c = (p, []) := by
  simp [optCall, h]

lemma optCall_some {p : Player} {e : Engine} (h : p.engine = some e) (c : EngineCmd) :
    optCall p c = ({ p with engine := some (applyCmd e c) }, [c]) := by
  simp [optCall, h]

lemma optCall_state (p : Player) (c : EngineCmd) :
    (optCall p c).1.state = p.state := by
  cases h : p.engine <;> simp [optCall, h]

/-! ### Claim theorems -/

/-- Claim C10: for every numeric argument `s`, `setSpeed(s)` sets
`state.currentSpeed` to exactly `s`, unconditionally and without
validation against the configured speed-options list; the state update
happens even when no AudioEngine is bound (the operation then issues no
engine command), while with an engine bound the rate `s` is forwarded. -/
theorem C10_setSpeed_unconditional (p : Player) (s : ℚ) :
    ((p.setSpeed s).player.state.currentSpeed = s ∧ (p.setSpeed s).ann = []) ∧
    (p.engine = none →
      (p.setSpeed s).cmds = [] ∧
      (p.setSpeed s).player =
        { p with state := { p.state with currentSpeed := s } }) ∧
    (∀ e : Engine, p.engine = some e →
      (p.setSpeed s).cmds = [.setPlaybackRate s] ∧
      (p.setSpeed s).player.engine = some { e with rate := s }) := by
  refine ⟨⟨?_, ?_⟩, ?_, ?_⟩
  · cases h : p.engine <;> simp [Player.setSpeed, optCall, h]
  · cases h : p.engine <;> simp [Player.setSpeed, optCall, h]
  · intro h
    simp [Player.setSpeed, optCall, h]
  · intro e h
    simp [Player.setSpeed, optCall, h, applyCmd]

/-- Witness for C10 at concrete inputs: a bound engine forwards the rate,
an absent engine updates state only. -/
theorem C10_setSpeed_unconditional_witness :
    ((Player.setSpeed
        ⟨createInitialState, none, ⟨true, DEFAULT_SPEED_OPTIONS, 1⟩, ⟨true, 15⟩⟩
        7).cmds = [] ∧
      (Player.setSpeed
        ⟨createInitialState, none, ⟨true, DEFAULT_SPEED_OPTIONS, 1⟩, ⟨true, 15⟩⟩
        7).player.state.currentSpeed = 7) ∧
    (Player.setSpeed
        ⟨createInitialState, some ⟨1, 1, 0, 100, false⟩,
          ⟨true, DEFAULT_SPEED_OPTIONS, 1⟩, ⟨true, 15⟩⟩
        7).cmds = [.setPlaybackRate 7] := by
  refine ⟨⟨?_, ?_⟩, ?_⟩
  · exact (C10_setSpeed_unconditional _ 7).2.1 rfl |>.1
  · exact (C10_setSpeed_unconditional _ 7).1.1
  · exact ((C10_setSpeed_unconditional _ 7).2.2 _ rfl).1

/-- Claim C5: after registering two plugins that each wrap `setSpeed`, one
`setSpeed` call executes both wrappers' added behaviors exactly once; the
most recently registered wrapper is the outermost layer of the bound
implementation, and each wrapper chains to the implementation bound when
it registered (so the base effect runs first, then the first-registered
tracking, then the second). -/
theorem C5_plugin_wrapping (s : PlayerState) (a b : String) (speed : ℚ) :
    ((((PluginPlayer.mk s baseSetSpeed).use (analyticsSpeedPlugin a)).use
        (analyticsSpeedPlugin b)).setSpeedImpl
      = wrapSpeedTracking b (wrapSpeedTracking a baseSetSpeed)) ∧
    ((((PluginPlayer.mk s baseSetSpeed).use (analyticsSpeedPlugin a)).use
        (analyticsSpeedPlugin b)).callSetSpeed speed).2
      = [.rate speed, .track a speed, .track b speed] ∧
    ((((PluginPlayer.mk s baseSetSpeed).use (analyticsSpeedPlugin a)).use
        (analyticsSpeedPlugin b)).callSetSpeed speed).1.state.currentSpeed
      = speed := by
  refine ⟨rfl, ?_, ?_⟩ <;>
    simp [PluginPlayer.use, analyticsSpeedPlugin, PluginPlayer.callSetSpeed,
      wrapSpeedTracking, baseSetSpeed]

lemma handleWsEvent_isReady (e : Engine) (s : PlayerState) (ev : WsEvent) :
    (handleWsEvent e s ev).isReady = true ↔ (s.isReady = true ∨ ev = .ready) := by
  cases ev <;> simp [handleWsEvent]

lemma isReady_foldl_mono (e : Engine) (evs : List WsEvent) (s : PlayerState)
    (h : s.isReady = true) :
    (evs.foldl (handleWsEvent e) s).isReady = true := by
  induction evs generalizing s with
  | nil => exact h
  | cons ev t ih =>
    exact ih _ ((handleWsEvent_isReady e s ev).mpr (Or.inl h))

lemma play_isReady (p : Player) : (p.play).player.state.isReady = p.state.isReady := by
  simp [Player.play, optCall_state]

lemma pause_isReady (p : Player) : (p.pause).player.state.isReady = p.state.isReady := by
  simp [Player.pause, optCall_state]

lemma playPause_isReady (p : Player) :
    (p.playPause).player.state.isReady = p.state.isReady := by
  simp [Player.playPause, optCall_state]

lemma seekTo_isReady (p : Player) (x : ℚ) :
    (p.seekTo x).player.state.isReady = p.state.isReady := by
  simp [Player.seekTo, optCall_state]

lemma seekToTime_isReady (p : Player) (x : ℚ) :
    (p.seekToTime x).player.state.isReady = p.state.isReady := by
  unfold Player.seekToTime
  dsimp only
  split
  · exact seekTo_isReady p _
  · rfl

lemma skipForward_isReady (p : Player) (x : Option ℚ) :
    (p.skipForward x).player.state.isReady = p.state.isReady := by
  unfold Player.skipForward
  dsimp only
  split
  · exact seekTo_isReady p _
  · rfl

lemma skipBack_isReady (p : Player) (x : Option ℚ) :
    (p.skipBack x).player.state.isReady = p.state.isReady := by
  unfold Player.skipBack
  dsimp only
  split
  · exact seekTo_isReady p _
  · rfl

lemma setSpeed_isReady (p : Player) (x : ℚ) :
    (p.setSpeed x).player.state.isReady = p.state.isReady := by
  cases h : p.engine <;> simp [Player.setSpeed, optCall, h]

lemma cycleSpeed_isReady (p : Player) :
    (p.cycleSpeed).player.state.isReady = p.state.isReady := by
  unfold Player.cycleSpeed
  exact setSpeed_isReady p _

lemma setVolume_isReady (p : Player) (x : ℚ) :
    (p.setVolume x).player.state.isReady = p.state.isReady := by
  unfold Player.setVolume
  dsimp only
  split <;> simp [optCall_state]

lemma toggleMute_isReady (p : Player) :
    (p.toggleMute).player.state.isReady = p.state.isReady := by
  unfold Player.toggleMute
  split <;> cases h : p.engine <;> simp [optCall, h]

/-- Claim C7: `state.isReady` is monotonic — it starts false, the event
handlers set it to true exactly on the AudioEngine `ready` event (and on
nothing else, in particular not on `error`), no event ever resets it, and
no public player operation (including `destroy`) changes it. -/
theorem C7_isReady_monotonic :
    createInitialState.isReady = false ∧
    (∀ (e : Engine) (s : PlayerState) (ev : WsEvent),
      ((handleWsEvent e s ev).isReady = true ↔ (s.isReady = true ∨ ev = .ready))) ∧
    (∀ (e : Engine) (s : PlayerState), (handleWsEvent e s .error) = s) ∧
    (∀ (e : Engine) (evs : List WsEvent) (s : PlayerState),
      s.isReady = true → (evs.foldl (handleWsEvent e) s).isReady = true) ∧
    (∀ (p : Player) (x : ℚ) (x? : Option ℚ),
      (p.play).player.state.isReady = p.state.isReady ∧
      (p.pause).player.state.isReady = p.state.isReady ∧
      (p.playPause).player.state.isReady = p.state.isReady ∧
      (p.seekTo x).player.state.isReady = p.state.isReady ∧
      (p.seekToTime x).player.state.isReady = p.state.isReady ∧
      (p.skipForward x?).player.state.isReady = p.state.isReady ∧
      (p.skipBack x?).player.state.isReady = p.state.isReady ∧
      (p.setSpeed x).player.state.isReady = p.state.isReady ∧
      (p.cycleSpeed).player.state.isReady = p.state.isReady ∧
      (p.setVolume x).player.state.isReady = p.state.isReady ∧
      (p.toggleMute).player.state.isReady = p.state.isReady ∧
      (p.destroy).state.isReady = p.state.isReady) := by
  refine ⟨rfl, handleWsEvent_isReady, ?_, isReady_foldl_mono, ?_⟩
  · intro e s
    rfl
  · intro p x x?
    exact ⟨play_isReady p, pause_isReady p, playPause_isReady p, seekTo_isReady p x,
      seekToTime_isReady p x, skipForward_isReady p x?, skipBack_isReady p x?,
      setSpeed_isReady p x, cycleSpeed_isReady p, setVolume_isReady p x,
      toggleMute_isReady p, rfl⟩

/-- Witness for C7 at a concrete input: once the `ready` event has fired,
a later `error` event leaves `isReady` true. -/
theorem C7_isReady_monotonic_witness :
    ([WsEvent.ready, WsEvent.error].foldl
      (handleWsEvent ⟨1, 1, 0, 100, false⟩) createInitialState).isReady = true := by
  exact C7_isReady_monotonic.2.2.2.1 ⟨1, 1, 0, 100, false⟩ [WsEvent.error]
    (handleWsEvent ⟨1, 1, 0, 100, false⟩ createInitialState WsEvent.ready)
    (by simp [handleWsEvent])

/-- Claim C9: the keyboard handler dispatches no player operation — and
calls no `preventDefault` — while a text-input-like element (input,
textarea, select, or any content-editable element) has focus, or while
the player's `isReady` state is false; under either guard every key event
is ignored entirely, for every configured key and config. -/
theorem C9_keyboard_guards (cfg : KeyboardConfigR) (active : Option FocusInfo)
    (engineBound : Bool) (st : PlayerState)
    (speedFeature : FeatureToggle SpeedConfigP) (key : String) :
    (isInputFocused active = true →
      handleKeyDown cfg active engineBound st speedFeature key = ([], false)) ∧
    (st.isReady = false →
      handleKeyDown cfg active engineBound st speedFeature key = ([], false)) := by
  constructor
  · intro h
    simp [handleKeyDown, h]
  · intro h
    unfold handleKeyDown
    rcases hf : isInputFocused active with _ | _ <;> simp [hf, h]

/-- Witness for C9 at concrete inputs: with an input focused, or with
`isReady` false, the Space key dispatches nothing. -/
theorem C9_keyboard_guards_witness :
    handleKeyDown DEFAULT_KEYBOARD_CONFIG (some ⟨"INPUT", false⟩) true
      { createInitialState with isReady := true } speedFeatureUndef " " = ([], false) ∧
    handleKeyDown DEFAULT_KEYBOARD_CONFIG none true createInitialState speedFeatureUndef " "
      = ([], false) := by
  constructor
  · exact (C9_keyboard_guards DEFAULT_KEYBOARD_CONFIG (some ⟨"INPUT", false⟩) true
      { createInitialState with isReady := true } speedFeatureUndef " ").1 (by decide)
  · exact (C9_keyboard_guards DEFAULT_KEYBOARD_CONFIG none true
      createInitialState speedFeatureUndef " ").2 rfl

lemma clamp01_nonneg (x : ℚ) : 0 ≤ max 0 (min 1 x) := le_max_left 0 _

lemma clamp01_le_one (x : ℚ) : max 0 (min 1 x) ≤ 1 :=
  max_le (by norm_num) (min_le_left 1 x)

lemma seekTo_engine_time {p : Player} {e : Engine} (h : p.engine = some e)
    (x : ℚ) :
    (p.seekTo x).player.engine = some { e with currentTime := max 0 (min 1 x) * e.duration } ∧
    (p.seekTo x).cmds = [.seekTo (max 0 (min 1 x))] := by
  constructor <;> simp [Player.seekTo, optCall, h, applyCmd]

/-- Claim C8: for any skip amount (explicit or defaulted) and any engine
current time, `skipForward` never leaves the engine with a playback time
above the duration and `skipBack` never with one below 0 — the seek
progress handed to the engine is clamped into `[0,1]`, so the resulting
time is `progress * duration ∈ [0, duration]`; and when the duration is 0
(or the engine is absent, so the duration reads as 0), both operations
are no-ops that change nothing and issue no engine command. -/
theorem C8_skip_clamped (p : Player) (seconds? : Option ℚ) :
    (∀ e : Engine, p.engine = some e → 0 < e.duration →
      (∃ e' : Engine, (p.skipForward seconds?).player.engine = some e' ∧
        0 ≤ e'.currentTime ∧ e'.currentTime ≤ e'.duration ∧
        e'.duration = e.duration) ∧
      (∃ e' : Engine, (p.skipBack seconds?).player.engine = some e' ∧
        0 ≤ e'.currentTime ∧ e'.currentTime ≤ e'.duration ∧
        e'.duration = e.duration)) ∧
    (∀ e : Engine, p.engine = some e → e.duration = 0 →
      p.skipForward seconds? = ⟨p, [], []⟩ ∧ p.skipBack seconds? = ⟨p, [], []⟩) ∧
    (p.engine = none →
      p.skipForward seconds? = ⟨p, [], []⟩ ∧ p.skipBack seconds? = ⟨p, [], []⟩) := by
  refine ⟨?_, ?_, ?_⟩
  · intro e he hd
    constructor
    · unfold Player.skipForward
      dsimp only
      rw [he]
      simp only [Option.map_some', Option.getD_some, if_pos hd]
      obtain ⟨h1, -⟩ := seekTo_engine_time he
        ((min e.duration (e.currentTime + seconds?.getD p.skipConfig.seconds)) / e.duration)
      refine ⟨_, h1, ?_, ?_, rfl⟩
      · exact mul_nonneg (clamp01_nonneg _) (le_of_lt hd)
      · calc max 0 (min 1 _) * e.duration ≤ 1 * e.duration :=
              mul_le_mul_of_nonneg_right (clamp01_le_one _) (le_of_lt hd)
          _ = e.duration := one_mul _
    · unfold Player.skipBack
      dsimp only
      rw [he]
      simp only [Option.map_some', Option.getD_some, if_pos hd]
      obtain ⟨h1, -⟩ := seekTo_engine_time he
        ((max 0 (e.currentTime - seconds?.getD p.skipConfig.seconds)) / e.duration)
      refine ⟨_, h1, ?_, ?_, rfl⟩
      · exact mul_nonneg (clamp01_nonneg _) (le_of_lt hd)
      · calc max 0 (min 1 _) * e.duration ≤ 1 * e.duration :=
              mul_le_mul_of_nonneg_right (clamp01_le_one _) (le_of_lt hd)
          _ = e.duration := one_mul _
  · intro e he hd
    constructor <;>
      [unfold Player.skipForward; unfold Player.skipBack] <;>
      dsimp only <;> rw [he] <;> simp [hd]
  · intro he
    constructor <;>
      [unfold Player.skipForward; unfold Player.skipBack] <;>
      dsimp only <;> rw [he] <;> simp

/-- Witness for C8 at concrete inputs: skipping forward by the default 15
seconds from t=95 of a 100-second track stays within the duration, and
with duration 0 both skips are no-ops. -/
theorem C8_skip_clamped_witness :
    (∃ e' : Engine,
      (Player.skipForward
        ⟨createInitialState, some ⟨1, 1, 95, 100, true⟩,
          ⟨true, DEFAULT_SPEED_OPTIONS, 1⟩, ⟨true, 15⟩⟩ none).player.engine = some e' ∧
      0 ≤ e'.currentTime ∧ e'.currentTime ≤ e'.duration ∧ e'.duration = 100) ∧
    (Player.skipBack
      ⟨createInitialState, some ⟨1, 1, 5, 0, true⟩,
        ⟨true, DEFAULT_SPEED_OPTIONS, 1⟩, ⟨true, 15⟩⟩ (some 200)) =
      ⟨⟨createInitialState, some ⟨1, 1, 5, 0, true⟩,
        ⟨true, DEFAULT_SPEED_OPTIONS, 1⟩, ⟨true, 15⟩⟩, [], []⟩ := by
  constructor
  · exact ((C8_skip_clamped _ none).1 ⟨1, 1, 95, 100, true⟩ rfl (by norm_num)).1
  · exact ((C8_skip_clamped _ (some 200)).2.1 ⟨1, 1, 5, 0, true⟩ rfl rfl).2

/-- Claim C1 as stated is false: with the AudioEngine reference absent,
`setSpeed(2)` is not a no-op — it still writes `state.currentSpeed`
(from 1 to 2), observably changing the player. -/
theorem C1_engine_absent_counterexample :
    (Player.setSpeed
        ⟨createInitialState, none, ⟨true, DEFAULT_SPEED_OPTIONS, 1⟩, ⟨true, 15⟩⟩
        2).player ≠
      ⟨createInitialState, none, ⟨true, DEFAULT_SPEED_OPTIONS, 1⟩, ⟨true, 15⟩⟩ ∧
    (Player.setSpeed
        ⟨createInitialState, none, ⟨true, DEFAULT_SPEED_OPTIONS, 1⟩, ⟨true, 15⟩⟩
        2).player.state.currentSpeed = 2 ∧
    createInitialState.currentSpeed = 1 := by
  refine ⟨?_, ?_, rfl⟩
  · intro h
    have := congrArg (fun q => q.state.currentSpeed) h
    simp [Player.setSpeed, optCall, createInitialState] at this
  · simp [Player.setSpeed, optCall]

/-- Claim C1, amended: with the AudioEngine reference absent (before
asynchronous initialization binds it, or after `destroy()` releases it),
every transport operation is total (never throws) and issues no engine
command; `play`, `pause`, `playPause`, `seekTo`, `seekToTime`,
`skipForward` and `skipBack` are full no-ops, and `getCurrentTime` /
`getDuration` return the safe default 0 — but `setSpeed`, `setVolume` and
`toggleMute` still update the player state (and `toggleMute` still
announces), so they are engine-silent rather than no-ops. -/
theorem C1_engine_absent_amended (p : Player) (h : p.engine = none) :
    p.play = ⟨p, [], []⟩ ∧
    p.pause = ⟨p, [], []⟩ ∧
    p.playPause = ⟨p, [], []⟩ ∧
    (∀ x : ℚ, p.seekTo x = ⟨p, [], []⟩) ∧
    (∀ x : ℚ, p.seekToTime x = ⟨p, [], []⟩) ∧
    (∀ x? : Option ℚ, p.skipForward x? = ⟨p, [], []⟩) ∧
    (∀ x? : Option ℚ, p.skipBack x? = ⟨p, [], []⟩) ∧
    p.getCurrentTime = 0 ∧
    p.getDuration = 0 ∧
    (∀ v : ℚ, (p.setSpeed v).cmds = [] ∧ (p.setSpeed v).player.engine = none ∧
      (p.setSpeed v).player.state = { p.state with currentSpeed := v }) ∧
    (∀ v : ℚ, (p.setVolume v).cmds = [] ∧ (p.setVolume v).player.engine = none ∧
      (p.setVolume v).ann = [] ∧
      (0 < max 0 (min 1 v) →
        (p.setVolume v).player.state =
          { p.state with previousVolume := max 0 (min 1 v), isMuted := false }) ∧
      (¬ 0 < max 0 (min 1 v) → (p.setVolume v).player.state = p.state)) ∧
    ((p.toggleMute).cmds = [] ∧ (p.toggleMute).player.engine = none ∧
      (p.state.isMuted = true →
        (p.toggleMute).player.state = { p.state with isMuted := false } ∧
        (p.toggleMute).ann = ["Unmuted"]) ∧
      (p.state.isMuted = false →
        (p.toggleMute).player.state =
          { p.state with previousVolume := 1, isMuted := true } ∧
        (p.toggleMute).ann = ["Muted"])) ∧
    (p.cycleSpeed).cmds = [] ∧
    p.destroy = p := by
  refine ⟨?_, ?_, ?_, ?_, ?_, ?_, ?_, ?_, ?_, ?_, ?_, ?_, ?_, ?_⟩
  · simp [Player.play, optCall, h]
  · simp [Player.pause, optCall, h]
  · simp [Player.playPause, optCall, h]
  · intro x
    simp [Player.seekTo, optCall, h]
  · intro x
    simp [Player.seekToTime, h]
  · intro x?
    simp [Player.skipForward, h]
  · intro x?
    simp [Player.skipBack, h]
  · simp [Player.getCurrentTime, h]
  · simp [Player.getDuration, h]
  · intro v
    simp [Player.setSpeed, optCall, h]
  · intro v
    by_cases hc : 0 < max 0 (min 1 v) <;>
      simp [Player.setVolume, optCall, h, hc]
  · by_cases hm : p.state.isMuted <;>
      simp [Player.toggleMute, optCall, h, hm]
  · unfold Player.cycleSpeed
    simp [Player.setSpeed, optCall, h]
  · simp [Player.destroy]
    cases p with
    | mk st en sc kc => simp at h ⊢; exact h.symm

/-- Witness for the amended C1 at a concrete engine-less player: the
transport no-op and safe getter, plus the state updates that
`setVolume(0.5)` and `toggleMute()` still perform without an engine. -/
theorem C1_engine_absent_amended_witness :
    Player.skipForward
        ⟨createInitialState, none, ⟨true, DEFAULT_SPEED_OPTIONS, 1⟩, ⟨true, 15⟩⟩ none =
      ⟨⟨createInitialState, none, ⟨true, DEFAULT_SPEED_OPTIONS, 1⟩, ⟨true, 15⟩⟩, [], []⟩ ∧
    Player.getCurrentTime
        ⟨createInitialState, none, ⟨true, DEFAULT_SPEED_OPTIONS, 1⟩, ⟨true, 15⟩⟩ = 0 ∧
    (Player.setVolume
        ⟨createInitialState, none, ⟨true, DEFAULT_SPEED_OPTIONS, 1⟩, ⟨true, 15⟩⟩
        (1/2)).player.state =
      { createInitialState with previousVolume := 1/2, isMuted := false } ∧
    (Player.toggleMute
        ⟨createInitialState, none, ⟨true, DEFAULT_SPEED_OPTIONS, 1⟩, ⟨true, 15⟩⟩).player.state =
      { createInitialState with previousVolume := 1, isMuted := true } ∧
    (Player.toggleMute
        ⟨createInitialState, none, ⟨true, DEFAULT_SPEED_OPTIONS, 1⟩, ⟨true, 15⟩⟩).ann =
      ["Muted"] := by
  refine ⟨?_, ?_, ?_, ?_, ?_⟩
  · exact (C1_engine_absent_amended _ rfl).2.2.2.2.2.1 none
  · exact (C1_engine_absent_amended _ rfl).2.2.2.2.2.2.2.1
  · have hsv :=
      (((C1_engine_absent_amended
            ⟨createInitialState, none, ⟨true, DEFAULT_SPEED_OPTIONS, 1⟩, ⟨true, 15⟩⟩
            rfl).2.2.2.2.2.2.2.2.2.2.1 (1/2)).2.2.2.1
        (by norm_num [max_def, min_def]))
    rw [hsv]
    norm_num [max_def, min_def]
  · exact (((C1_engine_absent_amended
        ⟨createInitialState, none, ⟨true, DEFAULT_SPEED_OPTIONS, 1⟩, ⟨true, 15⟩⟩
        rfl).2.2.2.2.2.2.2.2.2.2.2.1).2.2.2 rfl).1
  · exact (((C1_engine_absent_amended
        ⟨createInitialState, none, ⟨true, DEFAULT_SPEED_OPTIONS, 1⟩, ⟨true, 15⟩⟩
        rfl).2.2.2.2.2.2.2.2.2.2.2.1).2.2.2 rfl).2

/-- Claim C2 as stated is false at starting volume 0: the source captures
`wavesurfer?.getVolume() || 1`, and `0 || 1` is `1`, so muting at engine
volume 0 and unmuting restores volume 1, not 0. -/
theorem C2_toggleMute_counterexample :
    (Player.toggleMute
        (Player.toggleMute
          ⟨createInitialState, some ⟨0, 1, 0, 100, false⟩,
            ⟨true, DEFAULT_SPEED_OPTIONS, 1⟩, ⟨true, 15⟩⟩).player).player.engine =
      some ⟨1, 1, 0, 100, false⟩ ∧
    (1 : ℚ) ≠ 0 := by
  constructor
  · simp [Player.toggleMute, optCall, applyCmd, jsOr, createInitialState]
  · norm_num

/-- Claim C2, amended: for any starting engine volume `v`, with the player
unmuted, `toggleMute()` reads the volume from the engine at mute time
(ignoring any stale `previousVolume`), sets the engine volume to 0 and
announces; a second `toggleMute()` restores the engine volume to exactly
`v` whenever `v ≠ 0` — but when `v = 0` the JS `|| 1` fallback captures 1,
so the pair restores volume 1 instead. -/
theorem C2_toggleMute_amended (p : Player) (e : Engine)
    (he : p.engine = some e) (hm : p.state.isMuted = false) :
    ((p.toggleMute).player.engine = some { e with volume := 0 } ∧
      (p.toggleMute).player.state.previousVolume = jsOr e.volume 1 ∧
      (p.toggleMute).player.state.isMuted = true ∧
      (p.toggleMute).cmds = [.setVolume 0] ∧
      (p.toggleMute).ann = ["Muted"]) ∧
    (((p.toggleMute).player.toggleMute).player.engine =
      some { e with volume := jsOr e.volume 1 } ∧
      ((p.toggleMute).player.toggleMute).player.state.isMuted = false ∧
      ((p.toggleMute).player.toggleMute).ann = ["Unmuted"]) ∧
    (e.volume ≠ 0 →
      ((p.toggleMute).player.toggleMute).player.engine.map Engine.volume =
        some e.volume) ∧
    (e.volume = 0 →
      ((p.toggleMute).player.toggleMute).player.engine.map Engine.volume =
        some 1) := by
  have hfirst : (p.toggleMute).player =
      { p with
        state := { p.state with previousVolume := jsOr e.volume 1, isMuted := true }
        engine := some { e with volume := 0 } } := by
    simp [Player.toggleMute, optCall, applyCmd, he, hm]
  refine ⟨⟨?_, ?_, ?_, ?_, ?_⟩, ⟨?_, ?_, ?_⟩, ?_, ?_⟩
  · rw [hfirst]
  · rw [hfirst]
  · rw [hfirst]
  · simp [Player.toggleMute, optCall, he, hm]
  · simp [Player.toggleMute, hm]
  · rw [hfirst]
    simp [Player.toggleMute, optCall, applyCmd]
  · rw [hfirst]
    simp [Player.toggleMute, optCall, applyCmd]
  · rw [hfirst]
    simp [Player.toggleMute]
  · intro hv
    rw [hfirst]
    simp [Player.toggleMute, optCall, applyCmd, jsOr, hv]
  · intro hv
    rw [hfirst]
    simp [Player.toggleMute, optCall, applyCmd, jsOr, hv]

/-- Witness for the amended C2: starting volume 0.6 is muted to 0 and
restored exactly, and starting volume 0 comes back as 1. -/
theorem C2_toggleMute_amended_witness :
    ((Player.toggleMute
        (Player.toggleMute
          ⟨createInitialState, some ⟨3/5, 1, 0, 100, false⟩,
            ⟨true, DEFAULT_SPEED_OPTIONS, 1⟩, ⟨true, 15⟩⟩).player).player.engine.map
      Engine.volume = some (3/5 : ℚ)) ∧
    ((Player.toggleMute
        (Player.toggleMute
          ⟨createInitialState, some ⟨0, 1, 0, 100, false⟩,
            ⟨true, DEFAULT_SPEED_OPTIONS, 1⟩, ⟨true, 15⟩⟩).player).player.engine.map
      Engine.volume = some (1 : ℚ)) := by
  constructor
  · exact (C2_toggleMute_amended _ ⟨3/5, 1, 0, 100, false⟩ rfl rfl).2.2.1 (by norm_num)
  · exact (C2_toggleMute_amended _ ⟨0, 1, 0, 100, false⟩ rfl rfl).2.2.2 rfl

lemma neg_one_le_jsIndexOf (l : List ℚ) (x : ℚ) : -1 ≤ jsIndexOf l x := by
  induction l with
  | nil => simp [jsIndexOf]
  | cons a t ih =>
    simp only [jsIndexOf]
    split
    · omega
    · split
      · omega
      · omega

lemma jsIndexOf_eq_neg_one {l : List ℚ} {x : ℚ} :
    jsIndexOf l x = -1 ↔ x ∉ l := by
  induction l with
  | nil => simp [jsIndexOf]
  | cons a t ih =>
    by_cases hax : a = x
    · simp [jsIndexOf, hax]
    · have hne : x ≠ a := fun hh => hax hh.symm
      simp only [jsIndexOf, if_neg hax, List.mem_cons]
      by_cases ht : jsIndexOf t x = -1
      · simp [ht, hne, ih.mp ht]
      · have h0 : 0 ≤ jsIndexOf t x := by
          have := neg_one_le_jsIndexOf t x
          omega
        have hmem : x ∈ t := by
          by_contra hc
          exact ht (ih.mpr hc)
        simp only [if_neg ht]
        constructor
        · intro hc
          omega
        · intro hc
          exact absurd (Or.inr hmem) hc

lemma jsIndexOf_of_mem {l : List ℚ} {x : ℚ} (h : x ∈ l) :
    jsIndexOf l x = (l.indexOf x : Int) := by
  induction l with
  | nil => cases h
  | cons a t ih =>
    by_cases hax : a = x
    · subst hax
      simp [jsIndexOf, List.indexOf_cons_self]
    · have hne : x ≠ a := fun hh => hax hh.symm
      have hmem : x ∈ t := by
        rcases List.mem_cons.mp h with h1 | h1
        · exact absurd h1 hne
        · exact h1
      have ht : jsIndexOf t x ≠ -1 := fun hc =>
        (jsIndexOf_eq_neg_one.mp hc) hmem
      simp only [jsIndexOf, if_neg hax, if_neg ht]
      rw [ih hmem, List.indexOf_cons_ne t hax]
      push_cast
      ring

/-- Claim C4 as stated is false: with the default options
`[0.5,0.75,1,1.25,1.5,1.75,2]` and `currentSpeed = 3` (absent from the
options), `cycleSpeed()` yields `0.5` (the first option, because JS
`indexOf` returns `-1` and `(-1+1) % 7 = 0`), not the claim's fallback of
advancing from the index of the value 1 (index 2), which would yield
`1.25`. -/
theorem C4_cycleSpeed_counterexample :
    (Player.cycleSpeed
        ⟨{ createInitialState with currentSpeed := 3 }, none,
          ⟨true, DEFAULT_SPEED_OPTIONS, 1⟩, ⟨true, 15⟩⟩).player.state.currentSpeed
      = 1/2 ∧
    jsIndexOf DEFAULT_SPEED_OPTIONS 3 = -1 ∧
    jsIndexOf DEFAULT_SPEED_OPTIONS 1 = 2 ∧
    DEFAULT_SPEED_OPTIONS.getD 3 0 = 5/4 ∧
    (1/2 : ℚ) ≠ 5/4 := by
  refine ⟨?_, ?_, ?_, ?_, by norm_num⟩
  · norm_num [Player.cycleSpeed, Player.setSpeed, optCall, jsIndexOf,
      DEFAULT_SPEED_OPTIONS, createInitialState]
  · norm_num [jsIndexOf, DEFAULT_SPEED_OPTIONS]
  · norm_num [jsIndexOf, DEFAULT_SPEED_OPTIONS]
  · norm_num [DEFAULT_SPEED_OPTIONS]

/-- Claim C4, amended: `cycleSpeed()` advances to the next entry of the
configured nonempty options sequence, wrapping from the last entry to the
first; when `currentSpeed` is absent from the options it does not fail —
JS `indexOf` yields `-1`, so `(-1+1) % length = 0` and the speed becomes
the FIRST option (index 0), not the entry after the index of the value 1. -/
theorem C4_cycleSpeed_amended (p : Player)
    (hne : p.speedConfig.options ≠ []) :
    (p.state.currentSpeed ∉ p.speedConfig.options →
      (p.cycleSpeed).player.state.currentSpeed =
        p.speedConfig.options.getD 0 0) ∧
    (p.state.currentSpeed ∈ p.speedConfig.options →
      (p.cycleSpeed).player.state.currentSpeed =
        p.speedConfig.options.getD
          ((p.speedConfig.options.indexOf p.state.currentSpeed + 1) %
            p.speedConfig.options.length) 0) := by
  have hlen : 0 < p.speedConfig.options.length := List.length_pos.mpr hne
  constructor
  · intro hmem
    have hidx : jsIndexOf p.speedConfig.options p.state.currentSpeed = -1 :=
      jsIndexOf_eq_neg_one.mpr hmem
    unfold Player.cycleSpeed
    dsimp only
    rw [hidx]
    have hmod : ((-1 : Int) + 1) % (p.speedConfig.options.length : Int) = 0 := by
      norm_num
    rw [hmod]
    simp [Player.setSpeed, optCall_state]
  · intro hmem
    have hidx : jsIndexOf p.speedConfig.options p.state.currentSpeed =
        (p.speedConfig.options.indexOf p.state.currentSpeed : Int) :=
      jsIndexOf_of_mem hmem
    unfold Player.cycleSpeed
    dsimp only
    rw [hidx]
    have hmod : ((p.speedConfig.options.indexOf p.state.currentSpeed : Int) + 1) %
        (p.speedConfig.options.length : Int) =
        (((p.speedConfig.options.indexOf p.state.currentSpeed + 1) %
          p.speedConfig.options.length : Nat) : Int) := by
      push_cast
      ring
    rw [hmod, Int.toNat_natCast]
    simp [Player.setSpeed, optCall_state]

/-- Witness for the amended C4: over the default options, a current speed
of 2 (the last entry) wraps to 0.5, and an absent current speed of 3
falls back to the first option 0.5. -/
theorem C4_cycleSpeed_amended_witness :
    (Player.cycleSpeed
        ⟨{ createInitialState with currentSpeed := 2 }, none,
          ⟨true, DEFAULT_SPEED_OPTIONS, 1⟩, ⟨true, 15⟩⟩).player.state.currentSpeed
      = 1/2 ∧
    (Player.cycleSpeed
        ⟨{ createInitialState with currentSpeed := 3 }, none,
          ⟨true, DEFAULT_SPEED_OPTIONS, 1⟩, ⟨true, 15⟩⟩).player.state.currentSpeed
      = 1/2 := by
  constructor
  · have h2 := (C4_cycleSpeed_amended
        ⟨{ createInitialState with currentSpeed := 2 }, none,
          ⟨true, DEFAULT_SPEED_OPTIONS, 1⟩, ⟨true, 15⟩⟩
        (by simp [DEFAULT_SPEED_OPTIONS])).2
      (by norm_num [DEFAULT_SPEED_OPTIONS, createInitialState])
    rw [h2]
    norm_num [DEFAULT_SPEED_OPTIONS, createInitialState, List.indexOf_cons_ne,
      List.indexOf_cons_self]
  · have h3 := (C4_cycleSpeed_amended
        ⟨{ createInitialState with currentSpeed := 3 }, none,
          ⟨true, DEFAULT_SPEED_OPTIONS, 1⟩, ⟨true, 15⟩⟩
        (by simp [DEFAULT_SPEED_OPTIONS])).1
      (by norm_num [DEFAULT_SPEED_OPTIONS, createInitialState])
    rw [h3]
    norm_num [DEFAULT_SPEED_OPTIONS]

/-- Claim C3 as stated is false for zero-valued numeric fields: the speed
and skip normalizers merge object fields with JS `||`, so an explicit
`defaultSpeed: 0` yields 1 and an explicit `seconds: 0` yields 15 instead
of the object's field overriding the default. -/
theorem C3_normalizers_counterexample :
    (normalizeSpeedConfig (.obj ⟨true, none, some 0⟩)).defaultSpeed = 1 ∧
    (normalizeSkipConfig (.obj ⟨true, some 0⟩)).seconds = 15 ∧
    (0 : ℚ) ≠ 1 ∧ (0 : ℚ) ≠ 15 := by
  refine ⟨?_, ?_, by norm_num, by norm_num⟩
  · norm_num [normalizeSpeedConfig, jsOr]
  · norm_num [normalizeSkipConfig, jsOr, DEFAULT_SKIP_SECONDS]

/-- Claim C3, amended: each normalizer (speed, skip, keyboard, analytics)
returns a fully-populated record; `false` yields `enabled: false` with all
other fields from defaults; `true` or `undefined` yields the full defaults
with `enabled: true`; a partial object yields defaults with the object's
fields overriding them and `enabled` resolving to the object's (required
boolean) `enabled` field, i.e. `enabled !== false` — EXCEPT that in the
speed and skip normalizers, which merge with JS `||` rather than object
spread, a present but zero `defaultSpeed` or `seconds` falls back to the
default instead of overriding. -/
theorem C3_normalizers_amended :
    (normalizeSpeedConfig (.bool false) = ⟨false, DEFAULT_SPEED_OPTIONS, 1⟩ ∧
     normalizeSpeedConfig (.bool true) = ⟨true, DEFAULT_SPEED_OPTIONS, 1⟩ ∧
     normalizeSpeedConfig .undef = ⟨true, DEFAULT_SPEED_OPTIONS, 1⟩ ∧
     (∀ c : SpeedConfigP,
       (normalizeSpeedConfig (.obj c)).enabled = c.enabled ∧
       (normalizeSpeedConfig (.obj c)).options = c.options.getD DEFAULT_SPEED_OPTIONS ∧
       (∀ x : ℚ, c.defaultSpeed = some x → x ≠ 0 →
         (normalizeSpeedConfig (.obj c)).defaultSpeed = x) ∧
       (c.defaultSpeed = some 0 ∨ c.defaultSpeed = none →
         (normalizeSpeedConfig (.obj c)).defaultSpeed = 1))) ∧
    (normalizeSkipConfig (.bool false) = ⟨false, DEFAULT_SKIP_SECONDS⟩ ∧
     normalizeSkipConfig (.bool true) = ⟨true, DEFAULT_SKIP_SECONDS⟩ ∧
     normalizeSkipConfig .undef = ⟨true, DEFAULT_SKIP_SECONDS⟩ ∧
     (∀ c : SkipConfigP,
       (normalizeSkipConfig (.obj c)).enabled = c.enabled ∧
       (∀ x : ℚ, c.seconds = some x → x ≠ 0 →
         (normalizeSkipConfig (.obj c)).seconds = x) ∧
       (c.seconds = some 0 ∨ c.seconds = none →
         (normalizeSkipConfig (.obj c)).seconds = DEFAULT_SKIP_SECONDS))) ∧
    (normalizeKeyboardConfig (.bool false) =
        { DEFAULT_KEYBOARD_CONFIG with enabled := false } ∧
     normalizeKeyboardConfig (.bool true) = DEFAULT_KEYBOARD_CONFIG ∧
     normalizeKeyboardConfig .undef = DEFAULT_KEYBOARD_CONFIG ∧
     (∀ c : KeyboardConfigP,
       normalizeKeyboardConfig (.obj c) =
         ⟨c.enabled,
          c.playPause.getD DEFAULT_KEYBOARD_CONFIG.playPause,
          c.skipBack.getD DEFAULT_KEYBOARD_CONFIG.skipBack,
          c.skipForward.getD DEFAULT_KEYBOARD_CONFIG.skipForward,
          c.speedUp.getD DEFAULT_KEYBOARD_CONFIG.speedUp,
          c.speedDown.getD DEFAULT_KEYBOARD_CONFIG.speedDown,
          c.mute.getD DEFAULT_KEYBOARD_CONFIG.mute,
          c.jumpStart.getD DEFAULT_KEYBOARD_CONFIG.jumpStart,
          c.jumpEnd.getD DEFAULT_KEYBOARD_CONFIG.jumpEnd,
          c.showHints.getD DEFAULT_KEYBOARD_CONFIG.showHints⟩)) ∧
    (normalizeAnalyticsConfig (.bool false) =
        { DEFAULT_ANALYTICS_CONFIG with enabled := false } ∧
     normalizeAnalyticsConfig (.bool true) = DEFAULT_ANALYTICS_CONFIG ∧
     normalizeAnalyticsConfig .undef = DEFAULT_ANALYTICS_CONFIG ∧
     (∀ c : AnalyticsConfigP,
       normalizeAnalyticsConfig (.obj c) =
         ⟨c.enabled,
          c.tracker,
          c.trackView.getD true,
          c.trackPlay.getD true,
          c.trackPause.getD true,
          c.trackComplete.getD true,
          c.trackSpeedChange.getD true,
          c.trackSkip.getD true⟩)) := by
  refine ⟨⟨rfl, rfl, rfl, ?_⟩, ⟨rfl, rfl, rfl, ?_⟩, ⟨rfl, rfl, rfl, ?_⟩,
    ⟨rfl, rfl, rfl, ?_⟩⟩
  · intro c
    refine ⟨rfl, ?_, ?_, ?_⟩
    · cases hc : c.options <;> simp [normalizeSpeedConfig, hc]
    · intro x hx hx0
      simp [normalizeSpeedConfig, hx, jsOr, hx0]
    · rintro (hx | hx) <;> simp [normalizeSpeedConfig, hx, jsOr]
  · intro c
    refine ⟨rfl, ?_, ?_⟩
    · intro x hx hx0
      simp [normalizeSkipConfig, hx, jsOr, hx0]
    · rintro (hx | hx) <;>
        simp [normalizeSkipConfig, hx, jsOr, DEFAULT_SKIP_SECONDS]
  · intro c
    rfl
  · intro c
    cases hc : c.tracker <;>
      simp [normalizeAnalyticsConfig, DEFAULT_ANALYTICS_CONFIG, hc]

/-- Witness for the amended C3: a nonzero `defaultSpeed` in a partial
speed object does override the default. -/
theorem C3_normalizers_amended_witness :
    (normalizeSpeedConfig (.obj ⟨true, none, some 2⟩)).defaultSpeed = 2 ∧
    (normalizeSkipConfig (.obj ⟨false, some 30⟩)).seconds = 30 := by
  constructor
  · exact (C3_normalizers_amended.1.2.2.2 ⟨true, none, some 2⟩).2.2.1 2 rfl
      (by norm_num)
  · exact (C3_normalizers_amended.2.1.2.2.2 ⟨false, some 30⟩).2.1 30 rfl
      (by norm_num)

/-- Claim C6 as stated is false. `cleanupAnnouncer` counts elements with
class `wc-audio-player`, and `destroy()` removes neither the container
nor that class (it removes only `wc-audio-player--initialized`). So with
two active players whose containers carry the documented
`wc-audio-player` class, destroying BOTH players leaves the shared
announcer in the document; and with containers that lack that class,
destroying just ONE of two active players already removes the announcer. -/
theorem C6_announcer_counterexample :
    (destroyPageEffect (destroyPageEffect ⟨2, 2, true, true⟩)).announcerInDoc
      = true ∧
    (destroyPageEffect ⟨0, 2, true, true⟩).announcerInDoc = false ∧
    (destroyPageEffect ⟨0, 2, true, true⟩).initializedCount = 1 := by
  refine ⟨rfl, rfl, rfl⟩

/-- Claim C6, amended: each `destroy()` call re-evaluates the teardown
decision against the current document, but the quantity it re-evaluates
is the number of elements bearing the class `wc-audio-player` — a count
`destroy()` itself never changes (it removes only the
`wc-audio-player--initialized` class and keeps the container in the
document). The announcer is removed exactly when it is present and cached
and no `wc-audio-player`-class element exists, independently of how many
player instances are still active. -/
theorem C6_announcer_amended (s : AnnouncerPage) :
    ((destroyPageEffect s).announcerInDoc = false ↔
      (s.announcerInDoc = false ∨
        (s.announcerCached = true ∧ s.playerClassCount = 0))) ∧
    (destroyPageEffect s).playerClassCount = s.playerClassCount ∧
    (destroyPageEffect s).initializedCount = s.initializedCount - 1 := by
  obtain ⟨n, m, d, c⟩ := s
  refine ⟨?_, ?_, ?_⟩
  · cases d <;> cases c <;> by_cases hn : n = 0 <;>
      simp [destroyPageEffect, cleanupAnnouncer, hn]
  · cases d <;> cases c <;> by_cases hn : n = 0 <;>
      simp [destroyPageEffect, cleanupAnnouncer, hn]
  · cases d <;> cases c <;> by_cases hn : n = 0 <;>
      simp [destroyPageEffect, cleanupAnnouncer, hn]

end WCAudio
